import Mathlib

/-!
Shallow embedding of the MedDrone Operations Center client (`src/app.js`).
Numbers that JavaScript holds as doubles are modelled as exact rationals;
the pieces of DOM state the code reads and writes (login form fields, the
login error box, card contents, progress-bar widths) are modelled as
explicit fields of a state record.  `Math.random()` calls are modelled as
rational parameters constrained to `[0, 1)`.
-/

namespace MedDrone

/-- One entry of the `appData.demo_users` table (`src/app.js` lines 8-13). -/
structure DemoUser where
  password : String
  role : String
  full_name : String
  deriving DecidableEq, Repr

/-- The fixed in-memory credential table, `appData.demo_users`
(`src/app.js` lines 8-13), as an association list keyed by username. -/
def demo_users_table : List (String × DemoUser) :=
  [("admin", ⟨"admin123", "Administrator", "System Administrator"⟩),
   ("fleet_mgr", ⟨"fleet123", "Fleet Manager", "Fleet Operations Manager"⟩),
   ("medical", ⟨"medical123", "Medical Coordinator", "Medical Supply Coordinator"⟩),
   ("demo", ⟨"demo123", "Observer", "Demo User"⟩)]

/-- Property lookup `appData.demo_users[username]` (`src/app.js` line 204). -/
def demo_users (username : String) : Option DemoUser :=
  (demo_users_table.find? (fun p => p.1 == username)).map (fun p => p.2)

/-- The session object held in `currentUser`: on the local fallback path the
code builds `{username: username, ...user}` (`src/app.js` lines 211-214). -/
structure Session where
  username : String
  role : String
  full_name : String
  deriving DecidableEq, Repr

/-- A drone record as consumed by the renderers
(fields read at `src/app.js` lines 518-524 and 553-587). -/
structure Drone where
  id : String
  status : String
  mission : String
  location : String
  battery : ℚ
  deriving DecidableEq, Repr

/-- A medical-supply record (`appData.medical_supplies` element). -/
structure Supply where
  item_name : String
  current_stock : Int
  min_stock_level : Int
  quality_status : String
  deriving DecidableEq, Repr

/-- The KPI snapshot, `appData.kpi_data` (`src/app.js` lines 16-21). -/
structure KPI where
  total_drones : Int
  active_missions : Int
  success_rate : ℚ
  avg_delivery_time : ℚ
  deriving DecidableEq, Repr

/-- The default KPI values hardcoded in `appData.kpi_data`
(`src/app.js` lines 16-21). -/
def default_kpi_data : KPI :=
  { total_drones := 15, active_missions := 8,
    success_rate := 94.5, avg_delivery_time := 12.3 }

/-- Battery CSS class of a drone card (`src/app.js` line 557):
`drone.battery > 60 ? 'high' : drone.battery > 30 ? 'medium' : 'low'`. -/
def batteryClass (battery : ℚ) : String :=
  if battery > 60 then "high" else if battery > 30 then "medium" else "low"

/-- JavaScript `Math.round`: round half toward positive infinity,
`Math.round(x) = ⌊x + 0.5⌋` (used at `src/app.js` lines 580, 873, 879). -/
def jsRound (q : ℚ) : Int := ⌊q + 1/2⌋

/-- Whitespace characters removed by JavaScript `String.prototype.trim`
(the ASCII white-space characters plus the no-break space). -/
def isJsWhitespace (c : Char) : Bool :=
  c == ' ' || c == Char.ofNat 9 || c == Char.ofNat 10 || c == Char.ofNat 13 ||
    c == Char.ofNat 11 || c == Char.ofNat 12 || c == Char.ofNat 160

/-- Strip leading and trailing whitespace from a character list. -/
def trimList (l : List Char) : List Char :=
  ((l.dropWhile isJsWhitespace).reverse.dropWhile isJsWhitespace).reverse

/-- JavaScript `value.trim()` (`src/app.js` lines 181-182). -/
def jsTrim (s : String) : String := ⟨trimList s.data⟩

/-- The global mutable application state of `src/app.js`: the session
(`currentUser`, line 25), the chart registry (`charts`, line 26), the timer
registry (`updateIntervals`, line 27), the `isInitialized` flag (line 28),
the cached entity data inside `appData` (lines 14-21), and the pieces of
DOM state the code reads back (login form fields, the `login-error` box,
the active page).  `cancelledTimers` and `destroyedCharts` are ghost logs
recording every `clearInterval` and `chart.destroy()` call. -/
structure AppState where
  currentUser : Option Session
  drone_fleet : List Drone
  medical_supplies : List Supply
  kpi_data : KPI
  updateIntervals : List (String × Nat)
  charts : List String
  isInitialized : Bool
  usernameValue : String
  passwordValue : String
  errorText : String
  errorHidden : Bool
  activePage : String
  cancelledTimers : List Nat
  destroyedCharts : List String
  deriving DecidableEq, Repr

/-- The state at script load: `currentUser = null`, empty caches, default
KPI data, no timers or charts, `isInitialized = false`
(`src/app.js` lines 7-28). -/
def initialState : AppState :=
  { currentUser := none, drone_fleet := [], medical_supplies := [],
    kpi_data := default_kpi_data, updateIntervals := [], charts := [],
    isInitialized := false, usernameValue := "", passwordValue := "",
    errorText := "", errorHidden := true, activePage := "dashboard",
    cancelledTimers := [], destroyedCharts := [] }

/-- `showLoginError` (`src/app.js` lines 140-150): writes the message into
the `login-error` box and unhides it.  The 5 s auto-dismiss timeout is a
separately scheduled task and is not part of this synchronous step. -/
def showLoginError (message : String) (s : AppState) : AppState :=
  { s with errorText := message, errorHidden := false }

/-- `clearLoginForm` (`src/app.js` lines 152-166): empties both input
fields and hides the `login-error` box (the error text itself is kept). -/
def clearLoginForm (s : AppState) : AppState :=
  { s with usernameValue := "", passwordValue := "", errorHidden := true }

/-- `fetchKPIs` (`src/app.js` lines 52-61): on success the response
replaces `appData.kpi_data` and is returned; on failure the cached
`appData.kpi_data` is returned and the cache is untouched.  The network
outcome is the `result` parameter (`none` = the request threw). -/
def fetchKPIs (result : Option KPI) (s : AppState) : KPI × AppState :=
  match result with
  | some data => (data, { s with kpi_data := data })
  | none => (s.kpi_data, s)

/-- `fetchFleetStatus` (`src/app.js` lines 63-72): same caching pattern for
`appData.drone_fleet`. -/
def fetchFleetStatus (result : Option (List Drone)) (s : AppState) :
    List Drone × AppState :=
  match result with
  | some data => (data, { s with drone_fleet := data })
  | none => (s.drone_fleet, s)

/-- `fetchMedicalSupplies` (`src/app.js` lines 74-83): same caching pattern
for `appData.medical_supplies`. -/
def fetchMedicalSupplies (result : Option (List Supply)) (s : AppState) :
    List Supply × AppState :=
  match result with
  | some data => (data, { s with medical_supplies := data })
  | none => (s.medical_supplies, s)

/-- `status.toLowerCase().replace(' ', '-')` replaces only the first
space (`src/app.js` line 558). -/
def replaceFirstSpace : List Char → List Char
  | [] => []
  | c :: cs => if c = ' ' then '-' :: cs else c :: replaceFirstSpace cs

/-- The status CSS class of a drone card (`src/app.js` line 558). -/
def statusClassOf (status : String) : String :=
  ⟨replaceFirstSpace (status.data.map Char.toLower)⟩

/-- The content `createDroneCard` renders into one fleet card
(`src/app.js` lines 553-587). -/
structure DroneCard where
  id : String
  statusClass : String
  statusText : String
  mission : String
  location : String
  batteryClass : String
  batteryWidth : ℚ
  batteryLabel : Int
  deriving DecidableEq, Repr

/-- `createDroneCard` (`src/app.js` lines 553-587): battery class from the
thresholds at line 557, battery label `Math.round(drone.battery)` at
line 580, bar width `drone.battery`% at line 578. -/
def createDroneCard (drone : Drone) : DroneCard :=
  { id := drone.id,
    statusClass := statusClassOf drone.status,
    statusText := drone.status,
    mission := drone.mission,
    location := drone.location,
    batteryClass := batteryClass drone.battery,
    batteryWidth := drone.battery,
    batteryLabel := jsRound drone.battery }

/-- `initializeFleetManagement` (`src/app.js` lines 528-551): fetches the
fleet (which already degrades to the cache on failure), clears the grid and
rebuilds one card per drone.  Returns the rendered card list. -/
def initializeFleetManagement (result : Option (List Drone)) (s : AppState) :
    List DroneCard × AppState :=
  let r := fetchFleetStatus result s
  (r.1.map createDroneCard, r.2)

/-- Outcome of the `POST /login` attempt inside `handleLogin`
(`src/app.js` lines 190-200): a 2xx response with `success: true` carrying
a user object, a response with `success` falsy, or a thrown network
error. -/
inductive NetLogin
  | success (user : Session)
  | failure
  | netError
  deriving DecidableEq, Repr

/-- Ghost record of what one `handleLogin` run did: whether the network
request was issued, whether the fallback table was consulted, the message
passed to `showLoginError` (if any), and whether a session was
established. -/
structure LoginReport where
  networkAttempted : Bool
  lookupAttempted : Bool
  errorShown : Option String
  succeeded : Bool
  deriving DecidableEq, Repr

/-- `initializeMainApp` (`src/app.js` lines 887-922): returns immediately
when `isInitialized` is set; otherwise shows the dashboard page, wires the
navigation listeners, and sets the flag.  `showPage` itself only toggles
the active page here: the page-specific initializer it schedules via
`setTimeout` is a separately scheduled task. -/
def initializeMainApp (s : AppState) : AppState :=
  if s.isInitialized then s
  else { s with activePage := "dashboard", isInitialized := true }

/-- The shared `catch` block of `handleLogin` (`src/app.js` lines
201-215): a case-sensitive exact lookup of the trimmed username in
`appData.demo_users`; on a password match the session is built from the
entry and the successful-login tail (clear form, swap screens, schedule
`initializeMainApp`) runs, otherwise the error is shown and the form
cleared. -/
def fallbackLogin (s : AppState) : AppState × LoginReport :=
  match demo_users (jsTrim s.usernameValue) with
  | some user =>
      if user.password = jsTrim s.passwordValue then
        (initializeMainApp (clearLoginForm
           { s with
             currentUser := some (Session.mk (jsTrim s.usernameValue)
               user.role user.full_name) }),
         { networkAttempted := true, lookupAttempted := true,
           errorShown := none, succeeded := true })
      else
        (clearLoginForm (showLoginError "Invalid username or password." s),
         { networkAttempted := true, lookupAttempted := true,
           errorShown := some "Invalid username or password.",
           succeeded := false })
  | none =>
      (clearLoginForm (showLoginError "Invalid username or password." s),
       { networkAttempted := true, lookupAttempted := true,
         errorShown := some "Invalid username or password.",
         succeeded := false })

/-- `handleLogin` (`src/app.js` lines 168-244), modelled at the value level
(both input fields are assumed present in the DOM; their values live in the
state).  Trims both fields, rejects empty input before any network or table
access, tries the network (`net` is its outcome), falls back to
`fallbackLogin` on a failure response or a network error, and on success
clears the form, swaps the screens, and runs `initializeMainApp`
(scheduled 100 ms later in the source). -/
def handleLogin (net : NetLogin) (s : AppState) : AppState × LoginReport :=
  if jsTrim s.usernameValue = "" ∨ jsTrim s.passwordValue = "" then
    (showLoginError "Please enter both username and password." s,
     { networkAttempted := false, lookupAttempted := false,
       errorShown := some "Please enter both username and password.",
       succeeded := false })
  else
    match net with
    | NetLogin.success user =>
        (initializeMainApp (clearLoginForm { s with currentUser := some user }),
         { networkAttempted := true, lookupAttempted := false,
           errorShown := none, succeeded := true })
    | _ => fallbackLogin s

/-- `handleLogout` (`src/app.js` lines 246-285): nulls `currentUser`, calls
`clearInterval` on every truthy handle in `updateIntervals` and resets the
registry, calls `destroy()` on every chart and resets `charts`, swaps the
screens, clears the login form, and navigates back to the dashboard page
(the page initializer `showPage` schedules is a separately scheduled
task). -/
def handleLogout (s : AppState) : AppState :=
  let s1 : AppState :=
    { s with
      currentUser := none,
      cancelledTimers :=
        s.cancelledTimers ++ (s.updateIntervals.map Prod.snd).filter (· != 0),
      updateIntervals := [],
      destroyedCharts := s.destroyedCharts ++ s.charts,
      charts := [] }
  let s2 := clearLoginForm s1
  { s2 with activePage := "dashboard" }

/-- One drone's battery step inside `updateDashboardDataLocal`
(`src/app.js` lines 518-524): an Active drone above 20% drains by
`Math.random() * 2` floored at 20; otherwise a Charging drone below 100%
gains `Math.random() * 5` capped at 100; any other drone is untouched. -/
def simulateDroneBattery (r : ℚ) (d : Drone) : Drone :=
  if d.status = "Active" ∧ d.battery > 20 then
    { d with battery := max 20 (d.battery - r * 2) }
  else if d.status = "Charging" ∧ d.battery < 100 then
    { d with battery := min 100 (d.battery + r * 5) }
  else d

/-- The `forEach` over `appData.drone_fleet` (`src/app.js` lines 518-524);
each iteration draws a fresh `Math.random()`, modelled by the stream
`r`. -/
def simulateFleet (r : Nat → ℚ) : List Drone → List Drone
  | [] => []
  | d :: ds =>
      simulateDroneBattery (r 0) d :: simulateFleet (fun i => r (i + 1)) ds

/-- The two KPI texts `updateDashboardDataLocal` parses back from the DOM
with `parseFloat` and rewrites (`src/app.js` lines 502-515). -/
structure DashKpiView where
  success_rate : ℚ
  avg_delivery_time : ℚ
  deriving DecidableEq, Repr

/-- `updateDashboardDataLocal` (`src/app.js` lines 498-525): the fallback
simulation tick.  Success rate moves by `(Math.random() - 0.5) * 0.1`
clamped to `[90, 100]`; delivery time by `(Math.random() - 0.5) * 0.5`
clamped to `[8, 20]`; every drone battery steps by
`simulateDroneBattery`.  `r1`, `r2` and the stream `r` are the successive
`Math.random()` draws. -/
def updateDashboardDataLocal (r1 r2 : ℚ) (r : Nat → ℚ)
    (view : DashKpiView) (s : AppState) : DashKpiView × AppState :=
  ({ success_rate :=
       max 90 (min 100 (view.success_rate + (r1 - 1/2) * (1/10))),
     avg_delivery_time :=
       max 8 (min 20 (view.avg_delivery_time + (r2 - 1/2) * (1/2))) },
   { s with drone_fleet := simulateFleet r s.drone_fleet })

/-- One flight row of the tracking page: the stored `style.width` of the
progress bar (a percentage, possibly fractional), the rendered
percent-complete label, and the rendered ETA minutes. -/
structure Flight where
  width : ℚ
  label : Int
  eta : Int
  deriving DecidableEq, Repr

/-- `updateFlightProgress` for one bar (`src/app.js` lines 862-884).
`parseInt(bar.style.width) || 0` truncates the stored width string to its
integer part (the floor, widths being nonnegative; an unset width parses
to 0).  When that value is below 100 the bar is advanced by
`Math.random() * 5` capped at 100, the label becomes
`Math.round(newWidth)` and the ETA becomes
`Math.max(1, Math.round((100 - newWidth) * 0.2))`; otherwise the row is
untouched. -/
def updateFlightProgress (r : ℚ) (f : Flight) : Flight :=
  let currentWidth : Int := ⌊f.width⌋
  if currentWidth < 100 then
    let newWidth : ℚ := min 100 ((currentWidth : ℚ) + r * 5)
    { width := newWidth,
      label := jsRound newWidth,
      eta := max 1 (jsRound ((100 - newWidth) * (1/5))) }
  else f

/-- What one simulation tick is allowed to do to one drone battery
(`src/app.js` lines 518-524): an Active drone loses at most 2 points,
never gains, and never drops below 20 (unless it already was); a Charging
drone gains at most 5 points, never loses, and never exceeds 100; any
other drone is untouched. -/
def droneTickOk (d d2 : Drone) : Prop :=
  (d.status = "Active" →
     d.battery - d2.battery ≤ 2 ∧ d2.battery ≤ d.battery ∧
       min 20 d.battery ≤ d2.battery) ∧
  (d.status = "Charging" →
     d2.battery - d.battery ≤ 5 ∧ d.battery ≤ d2.battery ∧ d2.battery ≤ 100) ∧
  (d.status ≠ "Active" → d.status ≠ "Charging" → d2 = d)

/-- A sample drone record, as served by `GET /fleet/status`. -/
def sampleDrone : Drone :=
  { id := "LLA-001", status := "Active", mission := "Medical Delivery",
    location := "Sector 7", battery := 87 }

/-- The state after a user submits `demo` / `demo123` with the backend
unreachable: the fallback path logs the Observer session in. -/
def loggedInAsDemo : AppState :=
  (handleLogin NetLogin.netError
    { initialState with usernameValue := "demo", passwordValue := "demo123" }).1

/-- `loggedInAsDemo` after one successful fleet fetch cached one drone. -/
def loggedInWithFleet : AppState :=
  (fetchFleetStatus (some [sampleDrone]) loggedInAsDemo).2

/-- `loggedInAsDemo` with fresh admin credentials typed into the (hidden)
login form, modelling a second login attempt while already logged in
(`handleLogin` stays reachable through the `window.MedDroneApp` export,
`src/app.js` lines 978-984). -/
def reloginAttemptState : AppState :=
  { loggedInAsDemo with usernameValue := "admin", passwordValue := "admin123" }

lemma dropWhile_append_all {p : Char → Bool} (w l : List Char)
    (h : ∀ c ∈ w, p c = true) :
    (w ++ l).dropWhile p = l.dropWhile p := by
  induction w with
  | nil => rfl
  | cons c cs ih =>
      rw [List.cons_append, List.dropWhile_cons, if_pos (h c (by simp))]
      exact ih fun x hx => h x (by simp [hx])

lemma dropWhile_append_of_ne_nil {p : Char → Bool} (l w : List Char)
    (h : l.dropWhile p ≠ []) :
    (l ++ w).dropWhile p = l.dropWhile p ++ w := by
  induction l with
  | nil => exact absurd rfl h
  | cons c cs ih =>
      by_cases hc : p c = true
      · rw [List.cons_append, List.dropWhile_cons, if_pos hc,
          List.dropWhile_cons, if_pos hc] at *
        exact ih h
      · rw [List.cons_append, List.dropWhile_cons, if_neg hc,
          List.dropWhile_cons, if_neg hc]
        simp

lemma trimList_pad (w1 l w2 : List Char)
    (h1 : ∀ c ∈ w1, isJsWhitespace c = true)
    (h2 : ∀ c ∈ w2, isJsWhitespace c = true) :
    trimList (w1 ++ l ++ w2) = trimList l := by
  unfold trimList
  rw [List.append_assoc, dropWhile_append_all w1 (l ++ w2) h1]
  by_cases hl : l.dropWhile isJsWhitespace = []
  · have hall : ∀ c ∈ l, isJsWhitespace c = true := List.dropWhile_eq_nil_iff.mp hl
    have : (l ++ w2).dropWhile isJsWhitespace = [] := by
      rw [dropWhile_append_all l w2 hall]
      simpa using dropWhile_append_all w2 [] h2
    rw [this, hl]
  · rw [dropWhile_append_of_ne_nil l w2 hl, List.reverse_append,
      dropWhile_append_all w2.reverse (l.dropWhile isJsWhitespace).reverse
        fun c hc => h2 c (List.mem_reverse.mp hc)]

lemma jsTrim_pad (w1 s w2 : String)
    (h1 : ∀ c ∈ w1.data, isJsWhitespace c = true)
    (h2 : ∀ c ∈ w2.data, isJsWhitespace c = true) :
    jsTrim (w1 ++ s ++ w2) = jsTrim s := by
  unfold jsTrim
  rw [String.data_append, String.data_append, trimList_pad _ _ _ h1 h2]

lemma currentUser_showLoginError (m : String) (s : AppState) :
    (showLoginError m s).currentUser = s.currentUser := rfl

lemma currentUser_clearLoginForm (s : AppState) :
    (clearLoginForm s).currentUser = s.currentUser := rfl

lemma currentUser_initializeMainApp (s : AppState) :
    (initializeMainApp s).currentUser = s.currentUser := by
  unfold initializeMainApp
  split <;> rfl

lemma updateIntervals_initializeMainApp (s : AppState) :
    (initializeMainApp s).updateIntervals = s.updateIntervals := by
  unfold initializeMainApp
  split <;> rfl

lemma charts_initializeMainApp (s : AppState) :
    (initializeMainApp s).charts = s.charts := by
  unfold initializeMainApp
  split <;> rfl

lemma drone_fleet_initializeMainApp (s : AppState) :
    (initializeMainApp s).drone_fleet = s.drone_fleet := by
  unfold initializeMainApp
  split <;> rfl

lemma medical_supplies_initializeMainApp (s : AppState) :
    (initializeMainApp s).medical_supplies = s.medical_supplies := by
  unfold initializeMainApp
  split <;> rfl

lemma kpi_data_initializeMainApp (s : AppState) :
    (initializeMainApp s).kpi_data = s.kpi_data := by
  unfold initializeMainApp
  split <;> rfl

lemma isInitialized_initializeMainApp (s : AppState) :
    (initializeMainApp s).isInitialized = true := by
  unfold initializeMainApp
  by_cases h : s.isInitialized = true
  · rw [if_pos h]
    exact h
  · rw [if_neg h]

lemma demo_users_eq_some (u : String) (du : DemoUser)
    (h : demo_users u = some du) : (u, du) ∈ demo_users_table := by
  unfold demo_users at h
  cases hfind : demo_users_table.find? (fun p => p.1 == u) with
  | none => rw [hfind] at h; cases h
  | some p =>
      rw [hfind] at h
      have hp1 : p.1 = u := by simpa using List.find?_some hfind
      have hp2 : p.2 = du := by simpa using h
      have hmem := List.mem_of_find?_eq_some hfind
      rw [← hp1, ← hp2]
      simpa using hmem

lemma fallbackLogin_ok (s : AppState) (du : DemoUser)
    (hdu : demo_users (jsTrim s.usernameValue) = some du)
    (hpw : du.password = jsTrim s.passwordValue) :
    fallbackLogin s =
      (initializeMainApp (clearLoginForm
         { s with
           currentUser := some (Session.mk (jsTrim s.usernameValue)
             du.role du.full_name) }),
       { networkAttempted := true, lookupAttempted := true,
         errorShown := none, succeeded := true }) := by
  unfold fallbackLogin
  rw [hdu]
  simp [hpw]

lemma fallbackLogin_bad (s : AppState)
    (hbad : ∀ du, demo_users (jsTrim s.usernameValue) = some du →
       du.password ≠ jsTrim s.passwordValue) :
    fallbackLogin s =
      (clearLoginForm (showLoginError "Invalid username or password." s),
       { networkAttempted := true, lookupAttempted := true,
         errorShown := some "Invalid username or password.",
         succeeded := false }) := by
  unfold fallbackLogin
  cases hdu : demo_users (jsTrim s.usernameValue) with
  | none => rfl
  | some du =>
      simp only []
      rw [if_neg (hbad du hdu)]

lemma fallbackLogin_report_and_user (s t : AppState)
    (hu : jsTrim t.usernameValue = jsTrim s.usernameValue)
    (hp : jsTrim t.passwordValue = jsTrim s.passwordValue)
    (hcu : t.currentUser = s.currentUser) :
    (fallbackLogin t).2 = (fallbackLogin s).2 ∧
    (fallbackLogin t).1.currentUser = (fallbackLogin s).1.currentUser := by
  unfold fallbackLogin
  rw [hu, hp]
  cases hdu : demo_users (jsTrim s.usernameValue) with
  | none => exact ⟨rfl, hcu⟩
  | some du =>
      simp only []
      by_cases hpw : du.password = jsTrim s.passwordValue
      · rw [if_pos hpw, if_pos hpw]
        refine ⟨rfl, ?_⟩
        simp only [currentUser_initializeMainApp, currentUser_clearLoginForm]
      · rw [if_neg hpw, if_neg hpw]
        exact ⟨rfl, hcu⟩

lemma handleLogin_eq_fallback (net : NetLogin) (s : AppState)
    (hnet : net = NetLogin.failure ∨ net = NetLogin.netError)
    (hne : ¬(jsTrim s.usernameValue = "" ∨ jsTrim s.passwordValue = "")) :
    handleLogin net s = fallbackLogin s := by
  rcases hnet with h | h <;> subst h <;> (unfold handleLogin; rw [if_neg hne])

/-- One clamped random-walk step moves the value by at most the step
bound. -/
lemma clamp_step_abs (lo hi x d e : ℚ) (hlo : lo ≤ x) (hhi : x ≤ hi)
    (hd1 : -e ≤ d) (hd2 : d ≤ e) :
    |max lo (min hi (x + d)) - x| ≤ e := by
  have hy1 : max lo (min hi (x + d)) ≤ x + e :=
    max_le (by linarith) (le_trans (min_le_right _ _) (by linarith))
  have hy2 : x - e ≤ max lo (min hi (x + d)) :=
    le_trans (le_min (by linarith) (by linarith)) (le_max_right _ _)
  exact abs_le.mpr ⟨by linarith, by linarith⟩

/-- C1 counterexample: a state reachable by a successful fallback login
(`demo` / `demo123`) followed by one successful fleet fetch still holds the
cached drone after `handleLogout` — `handleLogout`
(`src/app.js` lines 246-285) never touches `appData.drone_fleet`,
`appData.medical_supplies` or `appData.kpi_data`. -/
theorem C1_counterexample :
    (handleLogin NetLogin.netError
      { initialState with usernameValue := "demo", passwordValue := "demo123" }
      ).2.succeeded = true ∧
    loggedInWithFleet.currentUser =
      some (Session.mk "demo" "Observer" "Demo User") ∧
    (handleLogout loggedInWithFleet).drone_fleet = [sampleDrone] ∧
    (handleLogout loggedInWithFleet).drone_fleet ≠ [] := by
  refine ⟨rfl, rfl, rfl, ?_⟩
  decide

/-- C1 (amended): after logout every timer active at that moment has been
cancelled and the registry is empty, every chart handle has been destroyed
and the chart registry is empty, and the Session is cleared — but the
cached entity data (drone fleet, medical supplies, KPI snapshot) is NOT
cleared: it persists unchanged across logout. -/
theorem C1_amended (s : AppState) :
    (handleLogout s).currentUser = none ∧
    (handleLogout s).updateIntervals = [] ∧
    (∀ t ∈ s.updateIntervals, t.2 ≠ 0 →
       t.2 ∈ (handleLogout s).cancelledTimers) ∧
    (handleLogout s).charts = [] ∧
    (∀ c ∈ s.charts, c ∈ (handleLogout s).destroyedCharts) ∧
    (handleLogout s).drone_fleet = s.drone_fleet ∧
    (handleLogout s).medical_supplies = s.medical_supplies ∧
    (handleLogout s).kpi_data = s.kpi_data := by
  refine ⟨rfl, rfl, ?_, rfl, ?_, rfl, rfl, rfl⟩
  · intro t ht hnz
    show t.2 ∈ s.cancelledTimers ++
      (s.updateIntervals.map Prod.snd).filter (· != 0)
    exact List.mem_append_right _ (List.mem_filter.mpr
      ⟨List.mem_map_of_mem Prod.snd ht, by simpa using hnz⟩)
  · intro c hc
    show c ∈ s.destroyedCharts ++ s.charts
    exact List.mem_append_right _ hc

/-- C1 witness: the amended theorem at a logged-in state holding one
dashboard timer, one chart and one cached drone. -/
theorem C1_witness :
    (handleLogout { loggedInWithFleet with
       updateIntervals := [("dashboard", 7)],
       charts := ["fleetStatus"] }).currentUser = none ∧
    (handleLogout { loggedInWithFleet with
       updateIntervals := [("dashboard", 7)],
       charts := ["fleetStatus"] }).updateIntervals = [] ∧
    7 ∈ (handleLogout { loggedInWithFleet with
       updateIntervals := [("dashboard", 7)],
       charts := ["fleetStatus"] }).cancelledTimers ∧
    "fleetStatus" ∈ (handleLogout { loggedInWithFleet with
       updateIntervals := [("dashboard", 7)],
       charts := ["fleetStatus"] }).destroyedCharts ∧
    (handleLogout { loggedInWithFleet with
       updateIntervals := [("dashboard", 7)],
       charts := ["fleetStatus"] }).drone_fleet = [sampleDrone] := by
  have h := C1_amended { loggedInWithFleet with
    updateIntervals := [("dashboard", 7)], charts := ["fleetStatus"] }
  exact ⟨h.1, h.2.1,
    h.2.2.1 ("dashboard", 7) (by decide) (by decide),
    h.2.2.2.2.1 "fleetStatus" (by decide),
    h.2.2.2.2.2.1⟩

/-- C5 counterexample: with the app already initialized and the Observer
logged in, submitting `admin` / `admin123` again replaces `currentUser`
with the Administrator session — the `isInitialized` flag
(`src/app.js` line 888) does not stop `handleLogin` from re-running
authentication. -/
theorem C5_counterexample :
    reloginAttemptState.currentUser =
      some (Session.mk "demo" "Observer" "Demo User") ∧
    reloginAttemptState.isInitialized = true ∧
    (handleLogin NetLogin.netError reloginAttemptState).1.currentUser =
      some (Session.mk "admin" "Administrator" "System Administrator") ∧
    (handleLogin NetLogin.netError reloginAttemptState).1.currentUser ≠
      reloginAttemptState.currentUser := by
  refine ⟨rfl, rfl, rfl, ?_⟩
  decide

/-- C5 (amended): a login attempted while the application is already
initialized leaves the timer registry, the chart registry and all cached
entity data unchanged — `initializeMainApp` is a no-op guarded by
`isInitialized` — but authentication itself re-runs, so `currentUser` can
change. -/
theorem C5_amended (net : NetLogin) (s : AppState)
    (h : s.isInitialized = true) :
    (handleLogin net s).1.updateIntervals = s.updateIntervals ∧
    (handleLogin net s).1.charts = s.charts ∧
    (handleLogin net s).1.drone_fleet = s.drone_fleet ∧
    (handleLogin net s).1.medical_supplies = s.medical_supplies ∧
    (handleLogin net s).1.kpi_data = s.kpi_data ∧
    (handleLogin net s).1.isInitialized = true := by
  unfold handleLogin
  split
  · exact ⟨rfl, rfl, rfl, rfl, rfl, h⟩
  · cases net with
    | success user =>
        exact ⟨updateIntervals_initializeMainApp _,
          charts_initializeMainApp _, drone_fleet_initializeMainApp _,
          medical_supplies_initializeMainApp _,
          kpi_data_initializeMainApp _, isInitialized_initializeMainApp _⟩
    | failure =>
        unfold fallbackLogin
        cases demo_users (jsTrim s.usernameValue) with
        | none => exact ⟨rfl, rfl, rfl, rfl, rfl, h⟩
        | some du =>
            simp only []
            split
            · exact ⟨updateIntervals_initializeMainApp _,
                charts_initializeMainApp _, drone_fleet_initializeMainApp _,
                medical_supplies_initializeMainApp _,
                kpi_data_initializeMainApp _, isInitialized_initializeMainApp _⟩
            · exact ⟨rfl, rfl, rfl, rfl, rfl, h⟩
    | netError =>
        unfold fallbackLogin
        cases demo_users (jsTrim s.usernameValue) with
        | none => exact ⟨rfl, rfl, rfl, rfl, rfl, h⟩
        | some du =>
            simp only []
            split
            · exact ⟨updateIntervals_initializeMainApp _,
                charts_initializeMainApp _, drone_fleet_initializeMainApp _,
                medical_supplies_initializeMainApp _,
                kpi_data_initializeMainApp _, isInitialized_initializeMainApp _⟩
            · exact ⟨rfl, rfl, rfl, rfl, rfl, h⟩

/-- C5 witness: the amended theorem at the concrete re-login attempt. -/
theorem C5_witness :
    (handleLogin NetLogin.netError reloginAttemptState).1.updateIntervals =
      reloginAttemptState.updateIntervals ∧
    (handleLogin NetLogin.netError reloginAttemptState).1.drone_fleet =
      reloginAttemptState.drone_fleet ∧
    (handleLogin NetLogin.netError reloginAttemptState).1.kpi_data =
      reloginAttemptState.kpi_data := by
  have h := C5_amended NetLogin.netError reloginAttemptState (by decide)
  exact ⟨h.1, h.2.2.1, h.2.2.2.2.1⟩

/-- C2 counterexample: the claim puts `battery = 30` in the "medium" band,
but `src/app.js` line 557 (`drone.battery > 30 ? 'medium' : 'low'`) gives
a drone with battery exactly 30 the class "low". -/
theorem C2_counterexample :
    (createDroneCard
      (Drone.mk "LLA-009" "Active" "Medical Delivery" "Zone 4" 30)).batteryClass
        = "low" ∧
    (createDroneCard
      (Drone.mk "LLA-009" "Active" "Medical Delivery" "Zone 4" 30)).batteryClass
        ≠ "medium" := by
  constructor
  · rfl
  · decide

/-- C2 (amended): the battery class of a drone card is "high" exactly when
battery > 60, "medium" exactly when 30 < battery <= 60, and "low" exactly
when battery <= 30; in particular battery 61 renders "high", 60 renders
"medium", 29 renders "low", but 30 renders "low" (not "medium"). -/
theorem C2_amended (d : Drone) :
    ((createDroneCard d).batteryClass = "high" ↔ 60 < d.battery) ∧
    ((createDroneCard d).batteryClass = "medium" ↔
       30 < d.battery ∧ d.battery ≤ 60) ∧
    ((createDroneCard d).batteryClass = "low" ↔ d.battery ≤ 30) := by
  have hb : (createDroneCard d).batteryClass = batteryClass d.battery := rfl
  rw [hb]
  unfold batteryClass
  split_ifs with h1 h2
  · exact ⟨iff_of_true rfl h1,
      iff_of_false (by decide) fun h => absurd h1 (not_lt.mpr h.2),
      iff_of_false (by decide) (not_le.mpr (by linarith))⟩
  · exact ⟨iff_of_false (by decide) h1,
      iff_of_true rfl ⟨h2, le_of_not_lt h1⟩,
      iff_of_false (by decide) (not_le.mpr h2)⟩
  · exact ⟨iff_of_false (by decide) h1,
      iff_of_false (by decide) fun h => h2 h.1,
      iff_of_true rfl (le_of_not_lt h2)⟩

/-- C3: each fetch helper returns the cached snapshot and leaves the cache
unchanged when the request fails, and replaces the cache with the response
on success; consequently a fleet render after a failed fetch shows exactly
as many cards as the previous snapshot had drones
(`src/app.js` lines 52-83 and 528-551). -/
theorem C3_theorem (s : AppState) :
    fetchKPIs none s = (s.kpi_data, s) ∧
    fetchFleetStatus none s = (s.drone_fleet, s) ∧
    fetchMedicalSupplies none s = (s.medical_supplies, s) ∧
    (∀ k : KPI, fetchKPIs (some k) s = (k, { s with kpi_data := k })) ∧
    (∀ fl : List Drone,
       fetchFleetStatus (some fl) s = (fl, { s with drone_fleet := fl })) ∧
    (∀ ms : List Supply,
       fetchMedicalSupplies (some ms) s =
         (ms, { s with medical_supplies := ms })) ∧
    (initializeFleetManagement none s).1.length = s.drone_fleet.length ∧
    (initializeFleetManagement none s).2 = s := by
  refine ⟨rfl, rfl, rfl, fun k => rfl, fun fl => rfl, fun ms => rfl, ?_, rfl⟩
  simp [initializeFleetManagement, fetchFleetStatus]

/-- C3 witness: instantiated at `loggedInWithFleet` (one cached drone). -/
theorem C3_witness :
    fetchFleetStatus none loggedInWithFleet =
      (loggedInWithFleet.drone_fleet, loggedInWithFleet) ∧
    (initializeFleetManagement none loggedInWithFleet).1.length =
      loggedInWithFleet.drone_fleet.length :=
  ⟨(C3_theorem loggedInWithFleet).2.1,
   (C3_theorem loggedInWithFleet).2.2.2.2.2.2.1⟩

/-- C9: a login attempt whose trimmed username or password is empty shows
the validation message and returns before the network request and before
the credential-table lookup; the session is untouched
(`src/app.js` lines 180-187). -/
theorem C9_theorem (net : NetLogin) (s : AppState)
    (h : jsTrim s.usernameValue = "" ∨ jsTrim s.passwordValue = "") :
    (handleLogin net s).2.networkAttempted = false ∧
    (handleLogin net s).2.lookupAttempted = false ∧
    (handleLogin net s).2.errorShown =
      some "Please enter both username and password." ∧
    (handleLogin net s).2.succeeded = false ∧
    (handleLogin net s).1.currentUser = s.currentUser ∧
    (handleLogin net s).1.errorText =
      "Please enter both username and password." ∧
    (handleLogin net s).1.errorHidden = false := by
  unfold handleLogin
  rw [if_pos h]
  exact ⟨rfl, rfl, rfl, rfl, rfl, rfl, rfl⟩

/-- C9 witness: a whitespace-only username with the backend up is rejected
as missing input before any network traffic. -/
theorem C9_witness :
    (handleLogin (NetLogin.success (Session.mk "demo" "Observer" "Demo User"))
      { initialState with usernameValue := "   ", passwordValue := "x" }
      ).2.networkAttempted = false ∧
    (handleLogin (NetLogin.success (Session.mk "demo" "Observer" "Demo User"))
      { initialState with usernameValue := "   ", passwordValue := "x" }
      ).1.currentUser = none := by
  have h := C9_theorem
    (NetLogin.success (Session.mk "demo" "Observer" "Demo User"))
    { initialState with usernameValue := "   ", passwordValue := "x" }
    (Or.inl (by decide))
  exact ⟨h.1, h.2.2.2.2.1⟩

/-- C4: when the network login path fails (network error or a failure
response), the fallback is a case-sensitive exact lookup in the fixed
4-entry `demo_users` table: every table pair logs in with that entry's
role and full name, and every non-matching pair leaves the session
unchanged, passes the invalid-credentials message to `showLoginError`, and
clears both input fields (`src/app.js` lines 8-13 and 201-215). -/
theorem C4_theorem (net : NetLogin) (s : AppState)
    (hnet : net = NetLogin.failure ∨ net = NetLogin.netError) :
    demo_users_table.length = 4 ∧
    (∀ e ∈ demo_users_table,
       jsTrim s.usernameValue = e.1 → jsTrim s.passwordValue = e.2.password →
       (handleLogin net s).1.currentUser =
         some (Session.mk e.1 e.2.role e.2.full_name) ∧
       (handleLogin net s).2.succeeded = true) ∧
    ((∀ e ∈ demo_users_table,
        ¬(jsTrim s.usernameValue = e.1 ∧
           jsTrim s.passwordValue = e.2.password)) →
      jsTrim s.usernameValue ≠ "" → jsTrim s.passwordValue ≠ "" →
      s.currentUser = none →
      (handleLogin net s).1.currentUser = none ∧
      (handleLogin net s).2.succeeded = false ∧
      (handleLogin net s).2.errorShown =
        some "Invalid username or password." ∧
      (handleLogin net s).1.usernameValue = "" ∧
      (handleLogin net s).1.passwordValue = "") := by
  refine ⟨rfl, ?_, ?_⟩
  · intro e he h1 h2
    have hfacts : ∀ e2 ∈ demo_users_table,
        e2.1 ≠ "" ∧ e2.2.password ≠ "" := by decide
    have hne : ¬(jsTrim s.usernameValue = "" ∨
        jsTrim s.passwordValue = "") := by
      rintro (h | h)
      · exact (hfacts e he).1 (h1.symm.trans h)
      · exact (hfacts e he).2 (h2.symm.trans h)
    have htab : ∀ e2 ∈ demo_users_table,
        demo_users e2.1 = some e2.2 := by decide
    have hdu : demo_users (jsTrim s.usernameValue) = some e.2 := by
      rw [h1]
      exact htab e he
    rw [handleLogin_eq_fallback net s hnet hne,
      fallbackLogin_ok s e.2 hdu h2.symm]
    constructor
    · simp only [currentUser_initializeMainApp, currentUser_clearLoginForm]
      rw [h1]
    · rfl
  · intro hbadall hu hp hcur
    have hne : ¬(jsTrim s.usernameValue = "" ∨
        jsTrim s.passwordValue = "") := by
      rintro (h | h)
      exacts [hu h, hp h]
    have hbad : ∀ du, demo_users (jsTrim s.usernameValue) = some du →
        du.password ≠ jsTrim s.passwordValue := by
      intro du hdu hpw
      exact hbadall (jsTrim s.usernameValue, du)
        (demo_users_eq_some _ _ hdu) ⟨rfl, hpw.symm⟩
    rw [handleLogin_eq_fallback net s hnet hne, fallbackLogin_bad s hbad]
    refine ⟨?_, rfl, rfl, rfl, rfl⟩
    simpa only [currentUser_clearLoginForm, currentUser_showLoginError]
      using hcur

/-- C4 witness: `fleet_mgr` / `fleet123` over a dead network logs the
Fleet Manager in via the fallback table. -/
theorem C4_witness :
    (handleLogin NetLogin.netError
      { initialState with
        usernameValue := "fleet_mgr", passwordValue := "fleet123" }
      ).1.currentUser =
      some (Session.mk "fleet_mgr" "Fleet Manager"
        "Fleet Operations Manager") ∧
    (handleLogin NetLogin.netError
      { initialState with
        usernameValue := "fleet_mgr", passwordValue := "fleet123" }
      ).2.succeeded = true :=
  (C4_theorem NetLogin.netError
    { initialState with
      usernameValue := "fleet_mgr", passwordValue := "fleet123" }
    (Or.inr rfl)).2.1
    ("fleet_mgr",
      DemoUser.mk "fleet123" "Fleet Manager" "Fleet Operations Manager")
    (by decide) (by decide) (by decide)

/-- C10: login input is whitespace-trimmed before use — padding the
username and password with leading and trailing whitespace changes neither
the login report (validation outcome, network use, lookup use, error,
success) nor the resulting session; with an empty core username the
padded, whitespace-only input is rejected by the empty-field check
(`src/app.js` lines 181-187 and 201-215). -/
theorem C10_theorem (net : NetLogin) (s t : AppState) (w1 w2 w3 w4 : String)
    (ht : t = { s with
       usernameValue := w1 ++ s.usernameValue ++ w2,
       passwordValue := w3 ++ s.passwordValue ++ w4 })
    (h1 : ∀ c ∈ w1.data, isJsWhitespace c = true)
    (h2 : ∀ c ∈ w2.data, isJsWhitespace c = true)
    (h3 : ∀ c ∈ w3.data, isJsWhitespace c = true)
    (h4 : ∀ c ∈ w4.data, isJsWhitespace c = true) :
    (handleLogin net t).2 = (handleLogin net s).2 ∧
    (handleLogin net t).1.currentUser = (handleLogin net s).1.currentUser := by
  have hu : jsTrim t.usernameValue = jsTrim s.usernameValue := by
    rw [ht]
    exact jsTrim_pad w1 s.usernameValue w2 h1 h2
  have hp : jsTrim t.passwordValue = jsTrim s.passwordValue := by
    rw [ht]
    exact jsTrim_pad w3 s.passwordValue w4 h3 h4
  have hcu : t.currentUser = s.currentUser := by rw [ht]
  unfold handleLogin
  rw [hu, hp]
  by_cases hc : jsTrim s.usernameValue = "" ∨ jsTrim s.passwordValue = ""
  · rw [if_pos hc, if_pos hc]
    exact ⟨rfl, hcu⟩
  · rw [if_neg hc, if_neg hc]
    cases net with
    | success user =>
        refine ⟨rfl, ?_⟩
        simp only [currentUser_initializeMainApp, currentUser_clearLoginForm]
    | failure => exact fallbackLogin_report_and_user s t hu hp hcu
    | netError => exact fallbackLogin_report_and_user s t hu hp hcu

/-- C10 witness: padding `admin` / `admin123` with surrounding whitespace
yields the same (successful Administrator) login as the unpadded
credentials. -/
theorem C10_witness :
    (handleLogin NetLogin.netError
      { initialState with
        usernameValue := " " ++ "admin" ++ " ",
        passwordValue := "" ++ "admin123" ++ "  " }).1.currentUser =
      (handleLogin NetLogin.netError
        { initialState with
          usernameValue := "admin",
          passwordValue := "admin123" }).1.currentUser ∧
    (handleLogin NetLogin.netError
      { initialState with
        usernameValue := "admin",
        passwordValue := "admin123" }).1.currentUser =
      some (Session.mk "admin" "Administrator" "System Administrator") := by
  constructor
  · exact (C10_theorem NetLogin.netError
      { initialState with
        usernameValue := "admin", passwordValue := "admin123" }
      { initialState with
        usernameValue := " " ++ "admin" ++ " ",
        passwordValue := "" ++ "admin123" ++ "  " }
      " " " " "" "  " rfl
      (by decide) (by decide) (by decide) (by decide)).2
  · decide

end MedDrone

namespace MedDrone

lemma simulateDroneBattery_ok (r : ℚ) (d : Drone)
    (hr0 : 0 ≤ r) (hr1 : r < 1) (hb1 : d.battery ≤ 100) :
    droneTickOk d (simulateDroneBattery r d) := by
  unfold droneTickOk simulateDroneBattery
  split_ifs with h1 h2
  · refine ⟨fun _ => ?_, fun hc => ?_, fun hna _ => absurd h1.1 hna⟩
    · refine ⟨?_, ?_, ?_⟩
      · have h := le_max_right (20:ℚ) (d.battery - r * 2)
        show d.battery - max 20 (d.battery - r * 2) ≤ 2
        linarith
      · exact max_le (le_of_lt h1.2) (by linarith)
      · exact le_trans (min_le_left _ _) (le_max_left _ _)
    · rw [h1.1] at hc
      exact absurd hc (by decide)
  · refine ⟨fun ha => ?_, fun _ => ?_, fun _ hnc => absurd h2.1 hnc⟩
    · rw [h2.1] at ha
      exact absurd ha (by decide)
    · refine ⟨?_, ?_, ?_⟩
      · have h := min_le_right (100:ℚ) (d.battery + r * 5)
        show min 100 (d.battery + r * 5) - d.battery ≤ 5
        linarith
      · exact le_min (le_of_lt h2.2) (by linarith)
      · exact min_le_left _ _
  · refine ⟨fun ha => ?_, fun hc => ?_, fun _ _ => rfl⟩
    · have hb20 : d.battery ≤ 20 := by
        by_contra hgt
        exact h1 ⟨ha, lt_of_not_le hgt⟩
      exact ⟨by linarith, le_refl _, min_le_right _ _⟩
    · have hb100 : 100 ≤ d.battery := by
        by_contra hlt
        exact h2 ⟨hc, lt_of_not_le hlt⟩
      exact ⟨by linarith, le_refl _, hb1⟩

lemma simulateFleet_ok (r : Nat → ℚ) (l : List Drone)
    (hr : ∀ i, 0 ≤ r i ∧ r i < 1)
    (hb : ∀ d ∈ l, 0 ≤ d.battery ∧ d.battery ≤ 100) :
    List.Forall₂ droneTickOk l (simulateFleet r l) := by
  induction l generalizing r with
  | nil => exact List.Forall₂.nil
  | cons d ds ih =>
      rw [simulateFleet]
      refine List.Forall₂.cons
        (simulateDroneBattery_ok (r 0) d (hr 0).1 (hr 0).2
          (hb d (by simp)).2)
        (ih (fun i => r (i + 1)) (fun i => hr (i + 1)) ?_)
      intro d2 hd2
      exact hb d2 (by simp [hd2])

/-- C6: one fallback simulation tick moves the success rate by at most
0.05 inside [90, 100], the delivery time by at most 0.25 inside [8, 20],
drains each Active drone by at most 2 points floored at 20, charges each
Charging drone by at most 5 points capped at 100, and leaves every other
drone untouched (`src/app.js` lines 498-525). -/
theorem C6_theorem (r1 r2 : ℚ) (r : Nat → ℚ) (view : DashKpiView)
    (s : AppState)
    (hr1 : 0 ≤ r1) (hr1b : r1 < 1) (hr2 : 0 ≤ r2) (hr2b : r2 < 1)
    (hr : ∀ i, 0 ≤ r i ∧ r i < 1)
    (hsr : 90 ≤ view.success_rate) (hsrb : view.success_rate ≤ 100)
    (hdt : 8 ≤ view.avg_delivery_time) (hdtb : view.avg_delivery_time ≤ 20)
    (hb : ∀ d ∈ s.drone_fleet, 0 ≤ d.battery ∧ d.battery ≤ 100) :
    |(updateDashboardDataLocal r1 r2 r view s).1.success_rate -
        view.success_rate| ≤ 1/20 ∧
    90 ≤ (updateDashboardDataLocal r1 r2 r view s).1.success_rate ∧
    (updateDashboardDataLocal r1 r2 r view s).1.success_rate ≤ 100 ∧
    |(updateDashboardDataLocal r1 r2 r view s).1.avg_delivery_time -
        view.avg_delivery_time| ≤ 1/4 ∧
    8 ≤ (updateDashboardDataLocal r1 r2 r view s).1.avg_delivery_time ∧
    (updateDashboardDataLocal r1 r2 r view s).1.avg_delivery_time ≤ 20 ∧
    List.Forall₂ droneTickOk s.drone_fleet
      (updateDashboardDataLocal r1 r2 r view s).2.drone_fleet := by
  refine ⟨?_, le_max_left _ _, max_le (by norm_num) (min_le_left _ _),
    ?_, le_max_left _ _, max_le (by norm_num) (min_le_left _ _),
    simulateFleet_ok r s.drone_fleet hr hb⟩
  · exact clamp_step_abs 90 100 view.success_rate ((r1 - 1/2) * (1/10))
      (1/20) hsr hsrb (by linarith) (by linarith)
  · exact clamp_step_abs 8 20 view.avg_delivery_time ((r2 - 1/2) * (1/2))
      (1/4) hdt hdtb (by linarith) (by linarith)

/-- C6 witness: the tick at integer-valued displayed KPIs, zero random
draws and the one-drone fleet. -/
theorem C6_witness :
    |(updateDashboardDataLocal 0 0 (fun _ => 0) (DashKpiView.mk 94 12)
        loggedInWithFleet).1.success_rate - 94| ≤ 1/20 ∧
    List.Forall₂ droneTickOk loggedInWithFleet.drone_fleet
      (updateDashboardDataLocal 0 0 (fun _ => 0) (DashKpiView.mk 94 12)
        loggedInWithFleet).2.drone_fleet := by
  have h := C6_theorem 0 0 (fun _ => 0) (DashKpiView.mk 94 12)
    loggedInWithFleet (by decide) (by decide) (by decide) (by decide)
    (fun _ => ⟨by norm_num, by norm_num⟩) (by decide) (by decide) (by decide)
    (by decide) (by decide)
  exact ⟨h.1, h.2.2.2.2.2.2⟩

/-- C7: on a tracking tick, a flight whose progress is below 100 gets the
ETA `max(1, round((100 - progress) * 0.2))` minutes recomputed from its
new progress value (`src/app.js` lines 866-881). -/
theorem C7_theorem (r : ℚ) (f : Flight) (h : f.width < 100) :
    (updateFlightProgress r f).eta =
      max 1 (jsRound ((100 - (updateFlightProgress r f).width) * (1/5))) := by
  have hfl : ⌊f.width⌋ < (100 : ℤ) := Int.floor_lt.mpr (by exact_mod_cast h)
  simp only [updateFlightProgress]
  rw [if_pos hfl]

/-- C7 witness: the ETA formula at a concrete flight 40% under way. -/
theorem C7_witness :
    (updateFlightProgress 0 (Flight.mk 40 40 12)).eta =
      max 1 (jsRound
        ((100 - (updateFlightProgress 0 (Flight.mk 40 40 12)).width) *
          (1/5))) :=
  C7_theorem 0 (Flight.mk 40 40 12) (by decide)

lemma updateFlightProgress_step (r : ℚ) (f : Flight)
    (hr0 : 0 ≤ r) (hr1 : r < 1) (hw0 : 0 ≤ f.width) (hw1 : f.width ≤ 100) :
    0 ≤ (updateFlightProgress r f).width ∧
    (updateFlightProgress r f).width ≤ 100 ∧
    (updateFlightProgress r f).width ≤ f.width + 5 ∧
    f.width - 1 < (updateFlightProgress r f).width ∧
    ⌊f.width⌋ ≤ ⌊(updateFlightProgress r f).width⌋ ∧
    (f.width = 100 → updateFlightProgress r f = f) := by
  by_cases hc : ⌊f.width⌋ < (100 : ℤ)
  · simp only [updateFlightProgress]
    rw [if_pos hc]
    have hfl : (⌊f.width⌋ : ℚ) ≤ f.width := Int.floor_le f.width
    have hfl2 : f.width - 1 < (⌊f.width⌋ : ℚ) := Int.sub_one_lt_floor f.width
    have hfl0 : (0 : ℚ) ≤ (⌊f.width⌋ : ℚ) := by
      exact_mod_cast Int.floor_nonneg.mpr hw0
    have hfl100 : (⌊f.width⌋ : ℚ) ≤ 100 := by
      exact_mod_cast le_of_lt hc
    refine ⟨le_min (by norm_num) (by linarith), min_le_left _ _,
      le_trans (min_le_right _ _) (by linarith),
      lt_min (by linarith) (by linarith), ?_, ?_⟩
    · exact Int.le_floor.mpr (le_min hfl100 (by linarith))
    · intro h100
      exfalso
      rw [h100] at hc
      norm_num at hc
  · simp only [updateFlightProgress]
    rw [if_neg hc]
    have h100 : (100 : ℚ) ≤ f.width := by
      exact_mod_cast Int.le_floor.mp (not_lt.mp hc)
    exact ⟨hw0, hw1, by linarith, by linarith, le_refl _, fun _ => rfl⟩

/-- C8 counterexample: progress is not monotonically non-decreasing.  A
bar at 96% advanced with draw 0.7 is stored as width 99.5%; the next tick
reads it back through `parseInt` as 99 (`src/app.js` line 866), and with
draw 0 rewrites the bar to 99% — strictly below the 99.5% it showed. -/
theorem C8_counterexample :
    (updateFlightProgress (7/10) (Flight.mk 96 96 1)).width = 199/2 ∧
    (updateFlightProgress 0 (Flight.mk (199/2) 100 1)).width <
      (Flight.mk (199/2) 100 1).width := by
  constructor
  · have hc : ⌊(Flight.mk 96 96 1).width⌋ < (100 : ℤ) := by norm_num
    simp only [updateFlightProgress]
    rw [if_pos hc]
    norm_num [min_def]
  · have hc : ⌊(Flight.mk (199/2) 100 1).width⌋ < (100 : ℤ) := by norm_num
    simp only [updateFlightProgress]
    rw [if_pos hc]
    norm_num [min_def]

/-- C8 (amended): each tracking tick advances a flight by at most 5
points, never above 100; a flight at exactly 100 stays at 100; after 3
ticks the total advance is at most 15 points; and the integer progress
read back through `parseInt` is non-decreasing — but the stored fractional
width itself may shrink by less than one point, because the tick reads the
width back truncated to its integer part. -/
theorem C8_amended (r1 r2 r3 : ℚ) (f : Flight)
    (h1 : 0 ≤ r1) (h1b : r1 < 1) (h2 : 0 ≤ r2) (h2b : r2 < 1)
    (h3 : 0 ≤ r3) (h3b : r3 < 1)
    (hw0 : 0 ≤ f.width) (hw1 : f.width ≤ 100) :
    ⌊f.width⌋ ≤ ⌊(updateFlightProgress r1 f).width⌋ ∧
    (updateFlightProgress r1 f).width ≤ f.width + 5 ∧
    (updateFlightProgress r1 f).width ≤ 100 ∧
    f.width - 1 < (updateFlightProgress r1 f).width ∧
    (f.width = 100 → updateFlightProgress r1 f = f) ∧
    (updateFlightProgress r3 (updateFlightProgress r2
      (updateFlightProgress r1 f))).width ≤ f.width + 15 := by
  have s1 := updateFlightProgress_step r1 f h1 h1b hw0 hw1
  have s2 := updateFlightProgress_step r2 (updateFlightProgress r1 f)
    h2 h2b s1.1 s1.2.1
  have s3 := updateFlightProgress_step r3 (updateFlightProgress r2
    (updateFlightProgress r1 f)) h3 h3b s2.1 s2.2.1
  refine ⟨s1.2.2.2.2.1, s1.2.2.1, s1.2.1, s1.2.2.2.1, s1.2.2.2.2.2, ?_⟩
  have a1 := s1.2.2.1
  have a2 := s2.2.2.1
  have a3 := s3.2.2.1
  linarith

/-- C8 witness: the amended theorem at a flight halfway done with three
zero draws. -/
theorem C8_witness :
    (updateFlightProgress 0 (Flight.mk 50 50 10)).width ≤ 50 + 5 ∧
    (updateFlightProgress 0 (Flight.mk 50 50 10)).width ≤ 100 ∧
    (updateFlightProgress 0 (updateFlightProgress 0
      (updateFlightProgress 0 (Flight.mk 50 50 10)))).width ≤ 50 + 15 := by
  have h := C8_amended 0 0 0 (Flight.mk 50 50 10) (by decide) (by decide)
    (by decide) (by decide) (by decide) (by decide) (by decide) (by decide)
  exact ⟨h.2.1, h.2.2.1, h.2.2.2.2.2⟩

end MedDrone
